import Mathlib

/-!
Shallow embedding of the MarketingStrategy-AI pipeline
(src/MarketingStrategy-AI.py, class MarketingStrategyAI).

Modelling conventions:
* Python scalar values are modelled by `Value`: strings, ints, floats.
  Python floats are modelled as exact rationals (ℚ); `round(x, 2)` is
  modelled by `round2` (round-half-up on ℚ; no claim below depends on a
  rounding tie).  JSON containers / null carried into a field are
  modelled by `Value.other` (any arithmetic or comparison on them raises
  `TypeError` in Python, which the model renders as `none`).
* Code that can raise an uncaught exception is modelled in `Option`:
  `none` means the Python code raises.
* Records (Python dicts) are association lists with distinct keys,
  looked up by first occurrence.
* Numeric strings are modelled by the decimal-numeral fragment of
  Python's `float()` grammar (optional sign, digits, optional fraction);
  scientific notation and the IEEE specials are outside the model.
-/

namespace MarketingAI

/-- A Python scalar value flowing through the pipeline. -/
inductive Value where
  | str (s : String)
  | intV (n : Int)
  | floatV (q : ℚ)
  | other
  deriving DecidableEq, Repr

/-- A record (Python dict): association list from field name to value. -/
abbrev RawRecord := List (String × Value)

/-- Dict lookup (first occurrence; Python dicts have unique keys). -/
def lookupField (r : RawRecord) (k : String) : Option Value :=
  (r.find? (fun p => p.1 == k)).map (fun p => p.2)

/-! ### Numeric-string parsing (model of Python float()) -/

/-- Value of a digit string, most significant first. -/
def digitsVal (ds : List Char) : Nat :=
  ds.foldl (fun a c => a * 10 + (c.toNat - 48)) 0

/-- Parse a decimal numeral: optional sign, integer digits, optional
fraction.  Mirrors the accepted inputs of Python float() restricted to
plain decimal notation. -/
def parseDecimal (cs : List Char) : Option ℚ :=
  let signed : ℚ × List Char :=
    match cs with
    | '-' :: rest => (-1, rest)
    | '+' :: rest => (1, rest)
    | _ => (1, cs)
  let sign := signed.1
  let body := signed.2
  let ip := body.span Char.isDigit
  match ip.2 with
  | [] => if ip.1.isEmpty then none else some (sign * (digitsVal ip.1 : ℚ))
  | '.' :: rest =>
    let fp := rest.span Char.isDigit
    if fp.2.isEmpty && !(ip.1.isEmpty && fp.1.isEmpty) then
      some (sign * ((digitsVal ip.1 : ℚ) + (digitsVal fp.1 : ℚ) / (10 ^ fp.1.length)))
    else none
  | _ => none

/-- Python float(value) on a scalar: numbers pass through, strings are
parsed, anything else raises (none). -/
def parseFloatV : Value → Option ℚ
  | .str s => parseDecimal s.data
  | .intV n => some (n : ℚ)
  | .floatV q => some q
  | .other => none

/-- Python int() truncation toward zero of an exact rational. -/
def truncQ (q : ℚ) : Int :=
  if 0 ≤ q then ⌊q⌋ else -⌊-q⌋

/-! ### Field tables (source lines 9-33) -/

/-- The eleven required fields, in source order (lines 9-13). -/
def requiredFields : List String :=
  ["campaign_id", "engagement_score", "conversion_rate", "predictive_roi",
   "budget_usd", "total_campaign_spend", "new_customers_acquired",
   "customers_start", "customers_end", "revenue_generated", "advertising_spend"]

/-- The three integer count fields (source line 167). -/
def countFields : List String :=
  ["new_customers_acquired", "customers_start", "customers_end"]

/-- Shape of a per-field validation rule from field_validations
(lines 15-26): an interval check, strict positivity, or strict
positivity of a true int. -/
inductive Rule where
  | range0to100
  | range0to1
  | pos
  | posInt
  deriving DecidableEq, Repr

/-- The field_validations table, in dict-insertion order (lines 15-26). -/
def fieldRules : List (String × Rule) :=
  [("engagement_score", .range0to100),
   ("conversion_rate", .range0to1),
   ("predictive_roi", .pos),
   ("budget_usd", .pos),
   ("total_campaign_spend", .pos),
   ("new_customers_acquired", .posInt),
   ("customers_start", .posInt),
   ("customers_end", .posInt),
   ("revenue_generated", .pos),
   ("advertising_spend", .pos)]

/-- Keys of field_validations, in iteration order. -/
def validatedFields : List String := fieldRules.map (fun p => p.1)

def ruleOf (k : String) : Option Rule :=
  (fieldRules.find? (fun p => p.1 == k)).map (fun p => p.2)

/-- Numeric view of a value for a Python comparison with a number;
none means the comparison raises TypeError. -/
def numOf : Value → Option ℚ
  | .intV n => some (n : ℚ)
  | .floatV q => some q
  | _ => none

/-- One validation lambda applied to a value.  some b = the lambda
returns b, none = it raises (caught by the validator at lines 118-120).
For the count fields the lambda is fun x => x > 0 and isinstance(x, int):
on a float the comparison succeeds and isinstance is False. -/
def applyRule : Rule → Value → Option Bool
  | .range0to100, v => (numOf v).map (fun q => decide (0 ≤ q ∧ q ≤ 100))
  | .range0to1, v => (numOf v).map (fun q => decide (0 ≤ q ∧ q ≤ 1))
  | .pos, v => (numOf v).map (fun q => decide (0 < q))
  | .posInt, v =>
    match v with
    | .intV n => some (decide (0 < n))
    | .floatV _ => some false
    | _ => none

/-- field_validations[k](v) as an Option Bool. -/
def fieldPred (k : String) (v : Value) : Option Bool :=
  match ruleOf k with
  | some ru => applyRule ru v
  | none => none

/-! ### Type coercion (_convert_field_types, lines 163-181) -/

/-- Coerce one field value per _convert_field_types: count fields go
through int(float(v)), other validated fields through float(v), and an
unparseable value is left unchanged. -/
def convertField (k : String) (v : Value) : Value :=
  if countFields.contains k then
    match parseFloatV v with
    | some q => .intV (truncQ q)
    | none => v
  else if validatedFields.contains k && !(k == "campaign_id") then
    match parseFloatV v with
    | some q => .floatV q
    | none => v
  else v

/-- _convert_field_types over a whole record (keys preserved in order). -/
def convertRecord (r : RawRecord) : RawRecord :=
  r.map (fun p => (p.1, convertField p.1 p.2))

/-! ### Validation (validate_data, lines 58-161) -/

/-- Required fields absent from a record, in requiredFields order
(loop at lines 100-103). -/
def missingFields (r : RawRecord) : List String :=
  requiredFields.filter (fun f => (lookupField r f).isNone)

/-- Whether field f of record r satisfies its validation lambda
(predicate returns True and does not raise). -/
def okField (r : RawRecord) (f : String) : Bool :=
  ((lookupField r f).bind (fieldPred f)) == some true

/-- Fields collected as invalid at lines 112-120, in dict order. -/
def invalidFields (r : RawRecord) : List String :=
  validatedFields.filter (fun f => !(okField r f))

def commaJoin (l : List String) : String := String.intercalate ", " l

/-- Error string built at line 107. -/
def missingMsg (row : Nat) (fs : List String) : String :=
  "ERROR: Missing required field(s): " ++ commaJoin fs ++ " in row " ++ toString row ++ "."

/-- Error string built at line 123. -/
def invalidMsg (row : Nat) (fs : List String) : String :=
  "ERROR: Invalid value for the field(s): " ++ commaJoin fs ++ " in row " ++
    toString row ++ ". Please correct and resubmit."

/-- Result of validate_data: overall flag, collected errors, and the
validated (coerced) records.  The rendered report string is presentation
(spec section 1) and is not modelled. -/
structure ValidationResult where
  is_valid : Bool
  errors : List String
  data : List RawRecord
  deriving DecidableEq, Repr

/-- The per-record loop of validate_data (lines 95-128), written as a
recursion over the batch; idx is the 0-based index of the current
record.  A record with missing fields is reported and skipped before its
values are checked; a record with invalid values is reported and
skipped; otherwise its coerced form is appended to the valid data. -/
def validateAux : Nat → List RawRecord → Bool × List String × List RawRecord
  | _, [] => (true, [], [])
  | idx, r :: rest =>
    let cr := convertRecord r
    let next := validateAux (idx + 1) rest
    let miss := missingFields cr
    if !miss.isEmpty then
      (false, missingMsg (idx + 1) miss :: next.2.1, next.2.2)
    else
      let inv := invalidFields cr
      if !inv.isEmpty then
        (false, invalidMsg (idx + 1) inv :: next.2.1, next.2.2)
      else
        (next.1, next.2.1, cr :: next.2.2)

/-! ### JSON (model of json.loads used at line 41) -/

/-- A parsed JSON value.  Python ints and floats are distinguished. -/
inductive Json where
  | null
  | bool (b : Bool)
  | numI (n : Int)
  | numF (q : ℚ)
  | str (s : String)
  | arr (elems : List Json)
  | obj (fields : List (String × Json))

def lookupJson (fs : List (String × Json)) (k : String) : Option Json :=
  (fs.find? (fun p => p.1 == k)).map (fun p => p.2)

def skipWs : List Char → List Char
  | c :: rest => if c == ' ' || c == '\n' || c == '\t' || c == '\r' then skipWs rest else c :: rest
  | [] => []

/-- Body of a JSON string after the opening quote; supports the common
escapes. -/
def parseJStr : List Char → Option (List Char × List Char)
  | [] => none
  | '"' :: rest => some ([], rest)
  | '\\' :: c :: rest =>
    (if c == '"' then some '"'
     else if c == '\\' then some '\\'
     else if c == '/' then some '/'
     else if c == 'n' then some '\n'
     else if c == 't' then some '\t'
     else if c == 'r' then some '\r'
     else none).bind (fun e =>
      (parseJStr rest).map (fun p => (e :: p.1, p.2)))
  | c :: rest => (parseJStr rest).map (fun p => (c :: p.1, p.2))

/-- A JSON number (decimal fragment, no exponent); Sum.inl for ints. -/
def parseJNum (cs : List Char) : Option ((Int ⊕ ℚ) × List Char) :=
  let signed : Bool × List Char :=
    match cs with
    | '-' :: r => (true, r)
    | _ => (false, cs)
  let ip := signed.2.span Char.isDigit
  if ip.1.isEmpty then none
  else
    match ip.2 with
    | '.' :: r =>
      let fp := r.span Char.isDigit
      if fp.1.isEmpty then none
      else
        let q : ℚ := (digitsVal ip.1 : ℚ) + (digitsVal fp.1 : ℚ) / (10 ^ fp.1.length)
        some (Sum.inr (if signed.1 then -q else q), fp.2)
    | rest => some (Sum.inl (if signed.1 then -(digitsVal ip.1 : Int) else (digitsVal ip.1 : Int)), rest)

mutual

/-- Fuel-bounded JSON value parser. -/
def parseJValue : Nat → List Char → Option (Json × List Char)
  | 0, _ => none
  | fuel + 1, cs =>
    match skipWs cs with
    | 'n' :: 'u' :: 'l' :: 'l' :: rest => some (.null, rest)
    | 't' :: 'r' :: 'u' :: 'e' :: rest => some (.bool true, rest)
    | 'f' :: 'a' :: 'l' :: 's' :: 'e' :: rest => some (.bool false, rest)
    | '"' :: rest => (parseJStr rest).map (fun p => (.str ⟨p.1⟩, p.2))
    | '[' :: rest =>
      (match skipWs rest with
       | ']' :: r2 => some (.arr [], r2)
       | cs2 => (parseJElems fuel cs2).map (fun p => (.arr p.1, p.2)))
    | '{' :: rest =>
      (match skipWs rest with
       | '}' :: r2 => some (.obj [], r2)
       | cs2 => (parseJFields fuel cs2).map (fun p => (.obj p.1, p.2)))
    | cs' =>
      (parseJNum cs').map (fun p =>
        (match p.1 with
         | .inl n => Json.numI n
         | .inr q => Json.numF q, p.2))

/-- Comma-separated JSON array elements up to the closing bracket. -/
def parseJElems : Nat → List Char → Option (List Json × List Char)
  | 0, _ => none
  | fuel + 1, cs =>
    (parseJValue fuel cs).bind (fun pj =>
      match skipWs pj.2 with
      | ',' :: r2 => (parseJElems fuel r2).map (fun p => (pj.1 :: p.1, p.2))
      | ']' :: r2 => some ([pj.1], r2)
      | _ => none)

/-- Comma-separated JSON object members up to the closing brace. -/
def parseJFields : Nat → List Char → Option (List (String × Json) × List Char)
  | 0, _ => none
  | fuel + 1, cs =>
    match skipWs cs with
    | '"' :: r1 =>
      (parseJStr r1).bind (fun pk =>
        match skipWs pk.2 with
        | ':' :: r3 =>
          (parseJValue fuel r3).bind (fun pv =>
            match skipWs pv.2 with
            | ',' :: r5 => (parseJFields fuel r5).map (fun p => ((⟨pk.1⟩, pv.1) :: p.1, p.2))
            | '}' :: r5 => some ([(⟨pk.1⟩, pv.1)], r5)
            | _ => none)
        | _ => none)
    | _ => none

end

/-- Model of json.loads: parse one value and require the whole input to
be consumed; none models json.JSONDecodeError. -/
def jsonLoads (cs : List Char) : Option Json :=
  match parseJValue (2 * cs.length + 2) cs with
  | some (j, rest) => if (skipWs rest).isEmpty then some j else none
  | none => none

/-- A JSON value that is falsy in Python (for the `if not data` check). -/
def jsonFalsy : Json → Bool
  | .null => true
  | .bool b => !b
  | .numI n => n == 0
  | .numF q => q == 0
  | .str s => s.isEmpty
  | .arr es => es.isEmpty
  | .obj fs => fs.isEmpty

/-- The Python scalar a JSON leaf deserialises to.  A Python bool is an
int subtype (True == 1), so it is modelled as an int; containers and
null become Value.other. -/
def jsonToValue : Json → Value
  | .str s => .str s
  | .numI n => .intV n
  | .numF q => .floatV q
  | .bool b => .intV (if b then 1 else 0)
  | _ => .other

/-- A JSON campaign entry as a RawRecord.  A non-object entry makes the
validator's record.items() call raise in Python; that path is outside
the claims and is modelled as the empty record. -/
def jsonToRaw : Json → RawRecord
  | .obj fs => fs.map (fun p => (p.1, jsonToValue p.2))
  | _ => []

/-! ### Parsing (parse_data, lines 35-56) -/

/-- Outcome of parse_data: a list of records, the error dict built at
line 46/53/56, or (campaigns key bound to a non-array) that value
returned unchanged at line 43. -/
inductive ParseOutput where
  | records (rs : List RawRecord)
  | errorDict (msg : String)
  | other (j : Json)

def errFormatMsg : String :=
  "ERROR: Invalid data format. Please provide data in CSV or JSON format."

/-- Python str.strip(): drop leading and trailing whitespace. -/
def stripList (cs : List Char) : List Char :=
  ((cs.dropWhile (fun c => c == ' ' || c == '\n' || c == '\t' || c == '\r')).reverse.dropWhile
    (fun c => c == ' ' || c == '\n' || c == '\t' || c == '\r')).reverse

/-- Split a character list at every occurrence of c. -/
def splitCh (c : Char) : List Char → List (List Char)
  | [] => [[]]
  | x :: rest =>
    let r := splitCh c rest
    if x == c then [] :: r
    else
      match r with
      | h :: t => (x :: h) :: t
      | [] => [[x]]

/-- One CSV data row zipped against the header names; a short row leaves
the trailing header fields bound to restval None (Value.other), extra
cells are dropped. -/
def csvRow : List String → List (List Char) → RawRecord
  | [], _ => []
  | h :: hs, [] => (h, Value.other) :: csvRow hs []
  | h :: hs, f :: fs => (h, Value.str ⟨f⟩) :: csvRow hs fs

/-- Model of csv.DictReader on the stripped input: first line is the
header, blank lines are skipped, cells are comma-separated (the quoting
layer of the csv module is not exercised by the claims). -/
def parseCSV (cs : List Char) : List RawRecord :=
  match splitCh '\n' cs with
  | [] => []
  | header :: rows =>
    let hs := (splitCh ',' header).map (fun f => (⟨f⟩ : String))
    (rows.filter (fun row => !row.isEmpty)).map (fun row => csvRow hs (splitCh ',' row))

/-- parse_data (lines 35-56): strip, then dispatch on a leading brace
(JSON) or a comma anywhere (CSV); anything else is the format error. -/
def parse_data (s : String) : ParseOutput :=
  let t := stripList s.data
  if t.head? = some '{' then
    match jsonLoads t with
    | some (.obj fs) =>
      (match lookupJson fs "campaigns" with
       | some (.arr es) => .records (es.map jsonToRaw)
       | some j => .other j
       | none => .records [jsonToRaw (.obj fs)])
    | some j => .other j
    | none => .errorDict errFormatMsg
  else if t.contains ',' then .records (parseCSV t)
  else .errorDict errFormatMsg

/-- validate_data (lines 58-161) on a parse outcome.  none models an
uncaught Python exception (only reachable on the unparsed passthrough
of a non-array campaigns value). -/
def validate_data : ParseOutput → Option ValidationResult
  | .errorDict m => some ⟨false, [m], []⟩
  | .records rs =>
    if rs.isEmpty then some ⟨false, ["ERROR: No data provided."], []⟩
    else
      let t := validateAux 0 rs
      some ⟨t.1, t.2.1, t.2.2⟩
  | .other j =>
    if jsonFalsy j then some ⟨false, ["ERROR: No data provided."], []⟩
    else
      match j with
      | .obj fs =>
        (match lookupJson fs "error" with
         | some (.str m) => some ⟨false, [m], []⟩
         | _ => none)
      | _ => none

/-! ### Metrics engine (analyze_campaigns, lines 183-311) -/

/-- The four threshold values of self.thresholds (lines 28-33),
modelled as an injectable configuration. -/
structure Thresholds where
  composite_score : ℚ
  cac : ℚ
  retention_rate : ℚ
  roas : ℚ
  deriving DecidableEq, Repr

/-- The values assigned in __init__. -/
def defaultThresholds : Thresholds := ⟨50, 50, 90, 3⟩

/-- round(x, 2) on the exact-rational model of a float. -/
def round2 (q : ℚ) : ℚ := (round (q * 100) : ℚ) / 100

/-- The five derived metric values of one campaign. -/
structure Metrics where
  cac : ℚ
  retention_rate : ℚ
  roas : ℚ
  composite_score : ℚ
  cost_efficiency : ℚ
  deriving DecidableEq, Repr

/-- The metric formulas of lines 207-268 as a pure function of the ten
numeric field values. -/
def mkMetrics (spend nca ce cs rev adv eng conv roi budget : ℚ) : Metrics :=
  let cac := round2 (spend / nca)
  let retention := round2 ((ce - nca) / cs * 100)
  let roas := round2 (rev / adv)
  let term1 := round2 (eng * (1 / 2))
  let term2 := round2 (conv * 100 * (3 / 10))
  let term3 := round2 (roi * 10 * (1 / 5))
  let term4 := round2 (cac * (1 / 20))
  let term5 := round2 (retention * (1 / 10))
  let term6 := round2 (roas * (1 / 10))
  let composite := round2 ((term1 + term2 + term3) - term4 + term5 + term6)
  ⟨cac, retention, roas, composite, round2 (composite / budget)⟩

/-- campaign[k] followed by use in arithmetic: none on a missing key
(KeyError) or a non-numeric value (TypeError). -/
def getNum (c : RawRecord) (k : String) : Option ℚ :=
  (lookupField c k).bind numOf

/-- The metric computation of one loop iteration of analyze_campaigns
(lines 189-268), at the Option level: none exactly when the Python
iteration raises, that is when a required field is missing (the report
f-strings at lines 190-204 index every field first), when one of the
ten numeric operands is non-numeric (TypeError), or when one of the
four denominators (new customers, customers start, advertising spend,
budget, in source order) is zero (ZeroDivisionError). -/
def metricsOf (c : RawRecord) : Option Metrics :=
  if requiredFields.all (fun f => (lookupField c f).isSome) then
    match getNum c "total_campaign_spend", getNum c "new_customers_acquired",
      getNum c "customers_end", getNum c "customers_start",
      getNum c "revenue_generated", getNum c "advertising_spend",
      getNum c "engagement_score", getNum c "conversion_rate",
      getNum c "predictive_roi", getNum c "budget_usd" with
    | some spend, some nca, some ce, some cs, some rev, some adv,
      some eng, some conv, some roi, some budget =>
      if nca = 0 then none
      else if cs = 0 then none
      else if adv = 0 then none
      else if budget = 0 then none
      else some (mkMetrics spend nca ce cs rev adv eng conv roi budget)
    | _, _, _, _, _, _, _, _, _, _ => none
  else none

def costEffMsg : String := "The campaign is considered cost-effective."

def reassessMsg : String := "Recommend a reassessment of the campaign budget."

def optimalAction : String := "Maintain or scale up the campaign."

def needsAction : String :=
  "Re-evaluate the campaign strategy by increasing customer engagement, reducing campaign spend to lower CAC, implementing retention programs to improve the Retention Rate, and optimizing advertising spend to enhance ROAS."

/-- Per-campaign analysis outcome, with the decision fields of
lines 274-304. -/
structure CampaignAnalysis where
  cac : ℚ
  retention_rate : ℚ
  roas : ℚ
  composite_score : ℚ
  cost_efficiency : ℚ
  budget_recommendation : String
  meets_thresholds : Bool
  status : String
  action : String
  deriving DecidableEq, Repr

/-- Decision logic of lines 274-304: the budget cutoff is the literal
0.05 at line 274; the four threshold comparisons read self.thresholds. -/
def decide_analysis (t : Thresholds) (m : Metrics) : CampaignAnalysis :=
  let budgetRec := if (1 : ℚ) / 20 < m.cost_efficiency then costEffMsg else reassessMsg
  let meets := decide (t.composite_score ≤ m.composite_score) &&
    decide (m.cac ≤ t.cac) &&
    decide (t.retention_rate ≤ m.retention_rate) &&
    decide (t.roas ≤ m.roas)
  { cac := m.cac
    retention_rate := m.retention_rate
    roas := m.roas
    composite_score := m.composite_score
    cost_efficiency := m.cost_efficiency
    budget_recommendation := budgetRec
    meets_thresholds := meets
    status := if meets then "Optimal" else "Needs Improvement"
    action := if meets then optimalAction else needsAction }

/-- One iteration of the analyze_campaigns loop on one validated
record. -/
def analyzeCampaign (t : Thresholds) (c : RawRecord) : Option CampaignAnalysis :=
  (metricsOf c).map (decide_analysis t)

/-- analyze_campaigns over the validated batch; an exception at any
record aborts the whole report. -/
def analyze_campaigns (t : Thresholds) (rs : List RawRecord) : Option (List CampaignAnalysis) :=
  rs.mapM (analyzeCampaign t)

/-- Structural result of process_data (lines 313-329): on a failed
validation only the validation report is returned; otherwise the
validation report plus the analysis of the validated records.  The
report strings themselves are presentation and are not modelled. -/
inductive ProcessOutput where
  | validationOnly (vr : ValidationResult)
  | full (vr : ValidationResult) (analyses : List CampaignAnalysis)
  deriving DecidableEq, Repr

/-- process_data (lines 313-329). -/
def process_data (t : Thresholds) (s : String) : Option ProcessOutput := do
  let vr ← validate_data (parse_data s)
  if vr.is_valid then
    let analyses ← analyze_campaigns t vr.data
    pure (ProcessOutput.full vr analyses)
  else
    pure (ProcessOutput.validationOnly vr)

/-- A record passes the validator's two per-record checks. -/
def recordPasses (r : RawRecord) : Bool :=
  (missingFields (convertRecord r)).isEmpty && (invalidFields (convertRecord r)).isEmpty

/-! ### Spec-side definition for the threshold-configuration claim -/

/-- Modelled from the spec: section 6 lists five overridable thresholds,
composite_score_min, cac_max, retention_rate_min, roas_min and
cost_efficiency_min; the code's self.thresholds (lines 28-33) has only
the first four. -/
structure SpecThresholds where
  composite_score_min : ℚ
  cac_max : ℚ
  retention_rate_min : ℚ
  roas_min : ℚ
  cost_efficiency_min : ℚ
  deriving DecidableEq, Repr

/-- Modelled from the spec: the budget recommendation compared against
the configurable cost_efficiency_min of section 6 (the code at line 274
compares against the literal 0.05 instead). -/
def specBudgetRecommendation (t : SpecThresholds) (ceff : ℚ) : String :=
  if t.cost_efficiency_min < ceff then costEffMsg else reassessMsg

/-! ### Concrete test fixtures -/

/-- The Scenario A CSV payload: the standard eleven-field header and the
row CAMP601,80,0.25,7,1500,1400,30,300,330,2100,350. -/
def inputA : String :=
  "campaign_id,engagement_score,conversion_rate,predictive_roi,budget_usd,total_campaign_spend,new_customers_acquired,customers_start,customers_end,revenue_generated,advertising_spend\nCAMP601,80,0.25,7,1500,1400,30,300,330,2100,350"

/-- The CAMP601 row as the raw record produced by the CSV reader. -/
def rawA : RawRecord :=
  [("campaign_id", .str "CAMP601"), ("engagement_score", .str "80"),
   ("conversion_rate", .str "0.25"), ("predictive_roi", .str "7"),
   ("budget_usd", .str "1500"), ("total_campaign_spend", .str "1400"),
   ("new_customers_acquired", .str "30"), ("customers_start", .str "300"),
   ("customers_end", .str "330"), ("revenue_generated", .str "2100"),
   ("advertising_spend", .str "350")]

/-- The CAMP601 record after type coercion. -/
def recA : RawRecord :=
  [("campaign_id", .str "CAMP601"), ("engagement_score", .floatV 80),
   ("conversion_rate", .floatV (1/4)), ("predictive_roi", .floatV 7),
   ("budget_usd", .floatV 1500), ("total_campaign_spend", .floatV 1400),
   ("new_customers_acquired", .intV 30), ("customers_start", .intV 300),
   ("customers_end", .intV 330), ("revenue_generated", .floatV 2100),
   ("advertising_spend", .floatV 350)]

/-- The analysis of CAMP601: cac 46.67, retention 100.0, roas 6.0,
composite 69.77, cost efficiency 0.05 (not strictly above the 0.05
cutoff), all four thresholds met. -/
def anA : CampaignAnalysis :=
  { cac := 4667/100, retention_rate := 100, roas := 6, composite_score := 6977/100,
    cost_efficiency := 1/20, budget_recommendation := reassessMsg,
    meets_thresholds := true, status := "Optimal", action := optimalAction }

/-- A malformed JSON payload: an opening brace never closed. -/
def inputMalformed : String := "\x7b\"campaign_id\": \"C1\", \"engagement_score\": 80"

/-- A JSON object whose campaigns key holds a number, not an array. -/
def inputCamp5 : String := "\x7b\"campaigns\": 5\x7d"

/-- A JSON object with a campaigns array holding one record. -/
def inputCampArr : String := "\x7b\"campaigns\": [\x7b\"campaign_id\": \"C1\"\x7d]\x7d"

/-- A JSON payload that is a single top-level record object. -/
def inputSingle : String := "\x7b\"campaign_id\": \"C1\"\x7d"

/-- A row-1 record missing only revenue_generated (Scenario B). -/
def recB : RawRecord :=
  [("campaign_id", .str "CAMP701"), ("engagement_score", .str "80"),
   ("conversion_rate", .str "0.25"), ("predictive_roi", .str "7"),
   ("budget_usd", .str "1500"), ("total_campaign_spend", .str "1400"),
   ("new_customers_acquired", .str "30"), ("customers_start", .str "300"),
   ("customers_end", .str "330"), ("advertising_spend", .str "350")]

/-- A coerced record like CAMP601 but with budget 1000, so its cost
efficiency is round2(69.77/1000) = 0.07. -/
def rec8 : RawRecord :=
  [("campaign_id", .str "CAMP801"), ("engagement_score", .floatV 80),
   ("conversion_rate", .floatV (1/4)), ("predictive_roi", .floatV 7),
   ("budget_usd", .floatV 1000), ("total_campaign_spend", .floatV 1400),
   ("new_customers_acquired", .intV 30), ("customers_start", .intV 300),
   ("customers_end", .intV 330), ("revenue_generated", .floatV 2100),
   ("advertising_spend", .floatV 350)]

/-- A valid record with more new customers (11) than final customers
(10) and a large customer base, so the raw retention ratio is
-0.001 percent, which rounds to 0. -/
def rec9 : RawRecord :=
  [("campaign_id", .str "CAMP901"), ("engagement_score", .floatV 50),
   ("conversion_rate", .floatV (1/2)), ("predictive_roi", .floatV 5),
   ("budget_usd", .floatV 100), ("total_campaign_spend", .floatV 100),
   ("new_customers_acquired", .intV 11), ("customers_start", .intV 100000),
   ("customers_end", .intV 10), ("revenue_generated", .floatV 100),
   ("advertising_spend", .floatV 100)]

/-! ### Helper lemmas -/

/-- The final is_valid flag is True exactly when every record of the
batch passes both per-record checks. -/
theorem validateAux_isValid (rs : List RawRecord) (idx : Nat) :
    (validateAux idx rs).1 = rs.all recordPasses := by
  induction rs generalizing idx with
  | nil => rfl
  | cons r rest ih =>
    simp only [validateAux, List.all_cons, recordPasses]
    by_cases hmiss : missingFields (convertRecord r) = []
    · by_cases hinv : invalidFields (convertRecord r) = []
      · simp [hmiss, hinv, ih, List.isEmpty_iff]
      · simp [hmiss, hinv, List.isEmpty_iff]
    · simp [hmiss, List.isEmpty_iff]

/-- The validated data are exactly the coerced forms of the records
that pass both checks, in order. -/
theorem validateAux_data (rs : List RawRecord) (idx : Nat) :
    (validateAux idx rs).2.2 = (rs.filter recordPasses).map convertRecord := by
  induction rs generalizing idx with
  | nil => rfl
  | cons r rest ih =>
    simp only [validateAux, List.filter_cons, recordPasses]
    by_cases hmiss : missingFields (convertRecord r) = []
    · by_cases hinv : invalidFields (convertRecord r) = []
      · simp [hmiss, hinv, ih, List.isEmpty_iff]
      · simp [hmiss, hinv, ih, List.isEmpty_iff]
    · simp [hmiss, ih, List.isEmpty_iff]

/-- okField unfolded to its witnesses. -/
theorem okField_iff (r : RawRecord) (f : String) :
    okField r f = true ↔ ∃ v, lookupField r f = some v ∧ fieldPred f v = some true := by
  unfold okField
  cases hl : lookupField r f with
  | none => simp
  | some v => simp [hl]

/-- A rule can only return True on a numeric value. -/
theorem applyRule_true_num {ru : Rule} {v : Value} (h : applyRule ru v = some true) :
    ∃ q, numOf v = some q := by
  cases ru <;> cases v <;> simp_all [applyRule, numOf]

/-- The positivity rule returns True exactly on positive numbers. -/
theorem applyRule_pos {v : Value} (h : applyRule .pos v = some true) :
    ∃ q, numOf v = some q ∧ 0 < q := by
  cases v <;> simp_all [applyRule, numOf]

/-- The positive-int rule returns True only on a positive true int. -/
theorem applyRule_posInt {v : Value} (h : applyRule .posInt v = some true) :
    ∃ n : ℤ, v = Value.intV n ∧ 0 < n := by
  cases v <;> simp_all [applyRule]

/-- fieldPred dispatches through the rule table. -/
theorem fieldPred_eq_applyRule {f : String} {ru : Rule} (h : ruleOf f = some ru) (v : Value) :
    fieldPred f v = applyRule ru v := by
  simp [fieldPred, h]

/-- From an empty missingFields list, every required field is present. -/
theorem present_of_noMissing {cr : RawRecord} (hm : missingFields cr = [])
    {f : String} (hf : f ∈ requiredFields) : (lookupField cr f).isSome = true := by
  have h := List.filter_eq_nil_iff.mp hm f hf
  cases hl : lookupField cr f with
  | none => rw [hl] at h; simp at h
  | some v => rfl

/-- From an empty invalidFields list, every validated field checks out. -/
theorem ok_of_noInvalid {cr : RawRecord} (hi : invalidFields cr = [])
    {f : String} (hf : f ∈ validatedFields) : okField cr f = true := by
  have h := List.filter_eq_nil_iff.mp hi f hf
  simpa using h

/-- A positivity-checked field yields a positive number under getNum. -/
theorem getNum_pos_of_ok {cr : RawRecord} {f : String}
    (hru : ruleOf f = some Rule.pos) (hok : okField cr f = true) :
    ∃ q, getNum cr f = some q ∧ 0 < q := by
  obtain ⟨v, hv, hp⟩ := (okField_iff cr f).mp hok
  rw [fieldPred_eq_applyRule hru] at hp
  obtain ⟨q, hq, hqpos⟩ := applyRule_pos hp
  exact ⟨q, by simp [getNum, hv, hq], hqpos⟩

/-- A range-checked field yields a number under getNum. -/
theorem getNum_num_of_ok {cr : RawRecord} {f : String} (u : Rule)
    (hru : ruleOf f = some u) (hok : okField cr f = true) :
    ∃ q, getNum cr f = some q := by
  obtain ⟨v, hv, hp⟩ := (okField_iff cr f).mp hok
  rw [fieldPred_eq_applyRule hru] at hp
  obtain ⟨q, hq⟩ := applyRule_true_num hp
  exact ⟨q, by simp [getNum, hv, hq]⟩

/-- A posInt-checked field yields a positive int under the lookup. -/
theorem getNum_posInt_of_ok {cr : RawRecord} {f : String}
    (hru : ruleOf f = some Rule.posInt) (hok : okField cr f = true) :
    ∃ n : ℤ, lookupField cr f = some (Value.intV n) ∧ 0 < n ∧
      getNum cr f = some (n : ℚ) ∧ (0 : ℚ) < (n : ℚ) := by
  obtain ⟨v, hv, hp⟩ := (okField_iff cr f).mp hok
  rw [fieldPred_eq_applyRule hru] at hp
  obtain ⟨n, rfl, hn⟩ := applyRule_posInt hp
  exact ⟨n, hv, hn, by simp [getNum, hv, numOf], by exact_mod_cast hn⟩

/-- On a record that passes both validator checks, the metric stage
succeeds and computes mkMetrics of the ten looked-up numbers. -/
theorem metricsOf_of_valid (r : RawRecord)
    (hm : missingFields (convertRecord r) = [])
    (hi : invalidFields (convertRecord r) = []) :
    ∃ spend nca ce cs rev adv eng conv roi budget : ℚ,
      getNum (convertRecord r) "total_campaign_spend" = some spend ∧
      getNum (convertRecord r) "new_customers_acquired" = some nca ∧ 0 < nca ∧
      getNum (convertRecord r) "customers_end" = some ce ∧
      getNum (convertRecord r) "customers_start" = some cs ∧ 0 < cs ∧
      getNum (convertRecord r) "revenue_generated" = some rev ∧
      getNum (convertRecord r) "advertising_spend" = some adv ∧ 0 < adv ∧
      getNum (convertRecord r) "engagement_score" = some eng ∧
      getNum (convertRecord r) "conversion_rate" = some conv ∧
      getNum (convertRecord r) "predictive_roi" = some roi ∧
      getNum (convertRecord r) "budget_usd" = some budget ∧ 0 < budget ∧
      metricsOf (convertRecord r) =
        some (mkMetrics spend nca ce cs rev adv eng conv roi budget) := by
  obtain ⟨spend, hspend, _⟩ := getNum_pos_of_ok (f := "total_campaign_spend") rfl (ok_of_noInvalid hi (by decide))
  obtain ⟨nca, _, hnca0, hnca, hncaQ⟩ := getNum_posInt_of_ok (f := "new_customers_acquired") rfl (ok_of_noInvalid hi (by decide))
  obtain ⟨ce, _, _, hce, _⟩ := getNum_posInt_of_ok (f := "customers_end") rfl (ok_of_noInvalid hi (by decide))
  obtain ⟨cs, _, hcs0, hcs, hcsQ⟩ := getNum_posInt_of_ok (f := "customers_start") rfl (ok_of_noInvalid hi (by decide))
  obtain ⟨rev, hrev, _⟩ := getNum_pos_of_ok (f := "revenue_generated") rfl (ok_of_noInvalid hi (by decide))
  obtain ⟨adv, hadv, hadvQ⟩ := getNum_pos_of_ok (f := "advertising_spend") rfl (ok_of_noInvalid hi (by decide))
  obtain ⟨eng, heng⟩ := getNum_num_of_ok (f := "engagement_score") Rule.range0to100 rfl (ok_of_noInvalid hi (by decide))
  obtain ⟨conv, hconv⟩ := getNum_num_of_ok (f := "conversion_rate") Rule.range0to1 rfl (ok_of_noInvalid hi (by decide))
  obtain ⟨roi, hroi, _⟩ := getNum_pos_of_ok (f := "predictive_roi") rfl (ok_of_noInvalid hi (by decide))
  obtain ⟨budget, hbudget, hbudgetQ⟩ := getNum_pos_of_ok (f := "budget_usd") rfl (ok_of_noInvalid hi (by decide))
  have hall : requiredFields.all (fun f => (lookupField (convertRecord r) f).isSome) = true := by
    rw [List.all_eq_true]
    intro f hf
    exact present_of_noMissing hm hf
  refine ⟨spend, nca, ce, cs, rev, adv, eng, conv, roi, budget,
    hspend, hnca, hncaQ, hce, hcs, hcsQ, hrev, hadv, hadvQ, heng, hconv, hroi, hbudget, hbudgetQ, ?_⟩
  rw [metricsOf, if_pos hall, hspend, hnca, hce, hcs, hrev, hadv, heng, hconv, hroi, hbudget]
  simp [hncaQ.ne', hcsQ.ne', hadvQ.ne', hbudgetQ.ne']

/-! ### Claim theorems -/

/-- Claim C1: every record that passes the Validator (all eleven fields
present, every domain predicate true) is analyzed by the Metrics Engine
without raising: every division (cac, retention_rate, roas,
cost_efficiency) has a nonzero denominator, so the analysis produces a
result. -/
theorem claim1_validated_analyze_never_raises (t : Thresholds) (rs : List RawRecord)
    (vr : ValidationResult) (hv : validate_data (ParseOutput.records rs) = some vr)
    (c : RawRecord) (hc : c ∈ vr.data) :
    (analyzeCampaign t c).isSome = true := by
  simp only [validate_data] at hv
  by_cases hrs : rs.isEmpty
  · rw [if_pos hrs] at hv
    cases hv
    simp at hc
  · rw [if_neg hrs] at hv
    cases hv
    rw [validateAux_data] at hc
    obtain ⟨r, hrmem, rfl⟩ := List.mem_map.mp hc
    obtain ⟨-, hpass⟩ := List.mem_filter.mp hrmem
    simp only [recordPasses, Bool.and_eq_true] at hpass
    obtain ⟨hmiss, hinv⟩ := hpass
    obtain ⟨spend, nca, ce, cs, rev, adv, eng, conv, roi, budget,
      -, -, -, -, -, -, -, -, -, -, -, -, -, -, hmetrics⟩ :=
      metricsOf_of_valid r (List.isEmpty_iff.mp hmiss) (List.isEmpty_iff.mp hinv)
    simp [analyzeCampaign, hmetrics]

/-- Claim C1 witness: the coerced CAMP601 record, validated from a
singleton batch, is analyzed successfully. -/
theorem claim1_witness : (analyzeCampaign defaultThresholds recA).isSome = true :=
  claim1_validated_analyze_never_raises defaultThresholds [rawA] ⟨true, [], [recA]⟩
    (by decide!) recA (by decide!)

/-- Claim C2: for a non-empty parsed batch, is_valid is true exactly
when every record passes both the missing-field check and the domain
predicates; the records that pass are collected (coerced, in order)
even when the batch is invalid; and an invalid batch makes process_data
return only the validation result, with no analysis. -/
theorem claim2_batch_validity_gate :
    (∀ rs vr, rs ≠ [] → validate_data (ParseOutput.records rs) = some vr →
      ((vr.is_valid = true ↔ ∀ r ∈ rs, recordPasses r = true) ∧
       vr.data = (rs.filter recordPasses).map convertRecord)) ∧
    (∀ t s vr, validate_data (parse_data s) = some vr → vr.is_valid = false →
      process_data t s = some (ProcessOutput.validationOnly vr)) := by
  constructor
  · intro rs vr hne hv
    simp only [validate_data] at hv
    rw [if_neg (by simpa [List.isEmpty_iff] using hne)] at hv
    cases hv
    constructor
    · simp [validateAux_isValid]
    · exact validateAux_data rs 0
  · intro t s vr hv hfalse
    simp [process_data, hv, hfalse]

/-- Claim C2 witness: a batch of one passing record, and a batch whose
single record fails (missing revenue_generated), on which the pipeline
returns the validation result only. -/
theorem claim2_witness :
    (((⟨true, [], [recA]⟩ : ValidationResult).is_valid = true ↔
        ∀ r ∈ [rawA], recordPasses r = true) ∧
      (⟨true, [], [recA]⟩ : ValidationResult).data =
        ([rawA].filter recordPasses).map convertRecord) ∧
    process_data defaultThresholds inputMalformed =
      some (ProcessOutput.validationOnly ⟨false, [errFormatMsg], []⟩) :=
  ⟨claim2_batch_validity_gate.1 [rawA] ⟨true, [], [recA]⟩ (by decide!) (by decide!),
   claim2_batch_validity_gate.2 defaultThresholds inputMalformed ⟨false, [errFormatMsg], []⟩
     (by decide!) rfl⟩

/-- Claim C3: on the Scenario A CSV input the pipeline validates the
record and computes cac = 46.67, retention_rate = 100.0, roas = 6.0,
the composite score 69.77 by the weighted-term formula with every
intermediate rounded to 2 decimals, and status Optimal; the analysis
record anA spells out all computed fields. -/
theorem claim3_scenarioA :
    process_data defaultThresholds inputA =
      some (ProcessOutput.full ⟨true, [], [recA]⟩ [anA]) ∧
    anA.cac = 4667/100 ∧ anA.retention_rate = 100 ∧ anA.roas = 6 ∧
    anA.composite_score =
      round2 ((round2 ((80 : ℚ) * (1/2)) + round2 ((1/4 : ℚ) * 100 * (3/10)) +
        round2 ((7 : ℚ) * 10 * (1/5))) - round2 ((4667/100 : ℚ) * (1/20)) +
        round2 ((100 : ℚ) * (1/10)) + round2 ((6 : ℚ) * (1/10))) ∧
    anA.meets_thresholds = true ∧ anA.status = "Optimal" := by
  refine ⟨by decide!, rfl, rfl, rfl, by decide!, rfl, rfl⟩

/-- Claim C4: for every analyzed record, meets_thresholds holds exactly
when composite_score, cac, retention_rate and roas clear the configured
thresholds (50, 50, 90, 3 by default), status is Optimal exactly when
meets_thresholds holds and Needs Improvement otherwise, and the budget
recommendation is cost-effective exactly when cost_efficiency is
strictly above 0.05. -/
theorem claim4_threshold_decision :
    defaultThresholds = ⟨50, 50, 90, 3⟩ ∧
    ∀ (t : Thresholds) (c : RawRecord) (a : CampaignAnalysis),
      analyzeCampaign t c = some a →
      ((a.meets_thresholds = true ↔
         (t.composite_score ≤ a.composite_score ∧ a.cac ≤ t.cac ∧
          t.retention_rate ≤ a.retention_rate ∧ t.roas ≤ a.roas)) ∧
       (a.status = "Optimal" ↔ a.meets_thresholds = true) ∧
       (a.status = "Needs Improvement" ↔ a.meets_thresholds = false) ∧
       (a.budget_recommendation = costEffMsg ↔ (1 : ℚ)/20 < a.cost_efficiency) ∧
       (a.budget_recommendation = reassessMsg ↔ ¬ ((1 : ℚ)/20 < a.cost_efficiency))) := by
  refine ⟨rfl, ?_⟩
  intro t c a h
  obtain ⟨m, hm, rfl⟩ := Option.map_eq_some'.mp h
  simp only [decide_analysis]
  refine ⟨by simp [Bool.and_eq_true, decide_eq_true_iff, and_assoc], ?_, ?_, ?_, ?_⟩
  · rcases Bool.eq_false_or_eq_true (decide (t.composite_score ≤ m.composite_score) &&
      decide (m.cac ≤ t.cac) && decide (t.retention_rate ≤ m.retention_rate) &&
      decide (t.roas ≤ m.roas)) with hb | hb <;> simp [hb]
  · rcases Bool.eq_false_or_eq_true (decide (t.composite_score ≤ m.composite_score) &&
      decide (m.cac ≤ t.cac) && decide (t.retention_rate ≤ m.retention_rate) &&
      decide (t.roas ≤ m.roas)) with hb | hb <;> simp [hb]
  · by_cases hce : (1 : ℚ)/20 < m.cost_efficiency <;>
      simp [hce, costEffMsg, reassessMsg]
  · by_cases hce : (1 : ℚ)/20 < m.cost_efficiency <;>
      simp [hce, costEffMsg, reassessMsg]

/-- Claim C4 witness: the decision facts instantiated on the analysis
of CAMP601 under the default thresholds. -/
theorem claim4_witness :
    (anA.meets_thresholds = true ↔
       (defaultThresholds.composite_score ≤ anA.composite_score ∧
        anA.cac ≤ defaultThresholds.cac ∧
        defaultThresholds.retention_rate ≤ anA.retention_rate ∧
        defaultThresholds.roas ≤ anA.roas)) ∧
    (anA.status = "Optimal" ↔ anA.meets_thresholds = true) ∧
    (anA.status = "Needs Improvement" ↔ anA.meets_thresholds = false) ∧
    (anA.budget_recommendation = costEffMsg ↔ (1 : ℚ)/20 < anA.cost_efficiency) ∧
    (anA.budget_recommendation = reassessMsg ↔ ¬ ((1 : ℚ)/20 < anA.cost_efficiency)) :=
  claim4_threshold_decision.2 defaultThresholds recA anA (by decide!)

/-- Claim C5: the Type Coercer parses the three count fields as
floating-point and truncates to integer (so "30.0" and "30.7" both
coerce to 30), parses every other validated numeric field as
floating-point, and leaves any value that does not parse unchanged
instead of raising. -/
theorem claim5_type_coercion :
    (convertField "new_customers_acquired" (Value.str "30.0") = Value.intV 30 ∧
     convertField "new_customers_acquired" (Value.str "30.7") = Value.intV 30) ∧
    (∀ k v q, countFields.contains k = true → parseFloatV v = some q →
       convertField k v = Value.intV (truncQ q)) ∧
    (∀ k v q, validatedFields.contains k = true → countFields.contains k = false →
       parseFloatV v = some q → convertField k v = Value.floatV q) ∧
    (∀ k v, parseFloatV v = none → convertField k v = v) := by
  refine ⟨⟨by decide!, by decide!⟩, ?_, ?_, ?_⟩
  · intro k v q hk hp
    have hk' : k ∈ countFields := by simpa using hk
    simp [convertField, hk', hp]
  · intro k v q hkv hkc hp
    have hkv' : k ∈ validatedFields := by simpa using hkv
    have hkc' : k ∉ countFields := by simpa using hkc
    have hne : k ≠ "campaign_id" := by
      intro he
      rw [he] at hkv
      exact absurd hkv (by decide)
    simp [convertField, hkc', hkv', hne, hp]
  · intro k v hp
    simp [convertField, hp]

/-- Claim C5 witness: the general coercion facts instantiated on
customers_start given a float 30.5 (truncated to 30), engagement_score
given the string "80" (parsed to 80.0), and conversion_rate given a
non-numeric string (left unchanged). -/
theorem claim5_witness :
    convertField "customers_start" (Value.floatV (61/2)) = Value.intV (truncQ (61/2)) ∧
    convertField "engagement_score" (Value.str "80") = Value.floatV 80 ∧
    convertField "conversion_rate" (Value.str "high") = Value.str "high" :=
  ⟨claim5_type_coercion.2.1 "customers_start" (Value.floatV (61/2)) (61/2) (by decide!) rfl,
   claim5_type_coercion.2.2.1 "engagement_score" (Value.str "80") 80 (by decide!) (by decide!)
     (by decide!),
   claim5_type_coercion.2.2.2 "conversion_rate" (Value.str "high") (by decide!)⟩

/-- Claim C6 counterexample: on the payload whose campaigns key holds
the number 5 (not an array), the claim's "otherwise" clause says the
single top-level object becomes a one-record sequence, but parse_data
returns the bare value 5 unchanged (source line 43 returns
json_data["campaigns"] whenever the key is present, without checking
that it is an array). -/
theorem claim6_counterexample :
    parse_data inputCamp5 = ParseOutput.other (Json.numI 5) ∧
    parse_data inputCamp5 ≠ ParseOutput.records [[("campaigns", Value.intV 5)]] := by
  constructor
  · rfl
  · intro h
    rw [show parse_data inputCamp5 = ParseOutput.other (Json.numI 5) from rfl] at h
    exact ParseOutput.noConfusion h

/-- Claim C6 amended: for input whose stripped form starts with a brace,
parsed as JSON: a campaigns key holding an array yields that array's
elements as the record sequence; when there is no campaigns key the
single top-level object becomes a one-record sequence (a campaigns key
with a non-array value instead passes that value through, see the
counterexample); and malformed JSON yields exactly one batch-level
error message and no record-level errors. -/
theorem claim6_json_parsing :
    (∀ s fs es, (stripList s.data).head? = some '{' →
       jsonLoads (stripList s.data) = some (Json.obj fs) →
       lookupJson fs "campaigns" = some (Json.arr es) →
       parse_data s = ParseOutput.records (es.map jsonToRaw)) ∧
    (∀ s fs, (stripList s.data).head? = some '{' →
       jsonLoads (stripList s.data) = some (Json.obj fs) →
       lookupJson fs "campaigns" = none →
       parse_data s = ParseOutput.records [jsonToRaw (Json.obj fs)]) ∧
    (∀ s, (stripList s.data).head? = some '{' →
       jsonLoads (stripList s.data) = none →
       validate_data (parse_data s) =
         some ⟨false, [errFormatMsg], []⟩) := by
  refine ⟨?_, ?_, ?_⟩
  · intro s fs es hhead hload hlook
    simp only [parse_data]
    rw [if_pos hhead, hload]
    dsimp only
    rw [hlook]
  · intro s fs hhead hload hlook
    simp only [parse_data]
    rw [if_pos hhead, hload]
    dsimp only
    rw [hlook]
  · intro s hhead hload
    simp only [parse_data]
    rw [if_pos hhead, hload]
    rfl

/-- Claim C6 witness: the three amended clauses instantiated on a
campaigns-array payload, a single-object payload, and an unbalanced
payload. -/
theorem claim6_witness :
    parse_data inputCampArr = ParseOutput.records [[("campaign_id", Value.str "C1")]] ∧
    parse_data inputSingle = ParseOutput.records [[("campaign_id", Value.str "C1")]] ∧
    validate_data (parse_data inputMalformed) = some ⟨false, [errFormatMsg], []⟩ :=
  ⟨claim6_json_parsing.1 inputCampArr [("campaigns", Json.arr [Json.obj [("campaign_id", Json.str "C1")]])]
     [Json.obj [("campaign_id", Json.str "C1")]] rfl rfl rfl,
   claim6_json_parsing.2.1 inputSingle [("campaign_id", Json.str "C1")] rfl rfl rfl,
   claim6_json_parsing.2.2 inputMalformed rfl rfl⟩

/-- Rounding to two decimals preserves nonpositivity. -/
theorem round2_nonpos {q : ℚ} (h : q ≤ 0) : round2 q ≤ 0 := by
  unfold round2
  have h1 : round (q * 100) ≤ 0 := by
    rw [round_eq]
    have hlt : q * 100 + 1/2 < 1 := by nlinarith
    have h2 := Int.floor_lt.mpr (show q * 100 + 1/2 < ((1 : ℤ) : ℚ) by exact_mod_cast hlt)
    omega
  have h2 : ((round (q * 100) : ℤ) : ℚ) ≤ 0 := by exact_mod_cast h1
  exact div_nonpos_of_nonpos_of_nonneg h2 (by norm_num)

/-- Claim C7 counterexample: for a row-1 record missing only
revenue_generated, the appended error string carries the "ERROR: "
prefix (line 107), so it is not exactly the string the claim names. -/
theorem claim7_counterexample :
    validate_data (ParseOutput.records [recB]) =
      some ⟨false, ["ERROR: Missing required field(s): revenue_generated in row 1."], []⟩ ∧
    "ERROR: Missing required field(s): revenue_generated in row 1." ≠
      "Missing required field(s): revenue_generated in row 1." := by
  exact ⟨by decide!, by decide!⟩

/-- Claim C7 amended: a record with missing required fields makes the
validator append exactly the string "ERROR: Missing required field(s):
<comma-joined names> in row <i>." with the 1-based row index, mark the
batch invalid, and skip the value checks for that record, excluding it
from the valid data; in particular a row-1 record missing only
revenue_generated yields "ERROR: Missing required field(s):
revenue_generated in row 1.". -/
theorem claim7_missing_field_error :
    (∀ idx r rest, (missingFields (convertRecord r)).isEmpty = false →
       validateAux idx (r :: rest) =
         (false,
          missingMsg (idx + 1) (missingFields (convertRecord r)) ::
            (validateAux (idx + 1) rest).2.1,
          (validateAux (idx + 1) rest).2.2)) ∧
    validate_data (ParseOutput.records [recB]) =
      some ⟨false, [missingMsg 1 ["revenue_generated"]], []⟩ ∧
    missingMsg 1 ["revenue_generated"] =
      "ERROR: Missing required field(s): revenue_generated in row 1." := by
  refine ⟨?_, by decide!, by decide!⟩
  intro idx r rest hmiss
  simp [validateAux, hmiss]

/-- Claim C7 witness: the amended missing-field equation instantiated
on the singleton batch holding the record that lacks
revenue_generated. -/
theorem claim7_witness :
    validateAux 0 (recB :: []) =
      (false,
       missingMsg (0 + 1) (missingFields (convertRecord recB)) ::
         (validateAux (0 + 1) []).2.1,
       (validateAux (0 + 1) []).2.2) :=
  claim7_missing_field_error.1 0 recB [] (by decide!)

/-- Claim C8 counterexample: the record rec8 has cost efficiency 0.07.
Under the spec's five-threshold configuration with cost_efficiency_min
raised to 0.10 the budget recommendation must flip to a reassessment,
but the engine's configuration (self.thresholds, lines 28-33) has no
cost-efficiency entry: the code keeps comparing against the literal
0.05 of line 274 and still reports cost-effective. -/
theorem claim8_counterexample :
    (analyzeCampaign defaultThresholds rec8).map (fun a => a.cost_efficiency) =
      some (7/100) ∧
    (analyzeCampaign defaultThresholds rec8).map (fun a => a.budget_recommendation) =
      some costEffMsg ∧
    specBudgetRecommendation ⟨50, 50, 90, 3, 1/10⟩ (7/100) = reassessMsg := by
  exact ⟨by decide!, by decide!, by decide!⟩

/-- Claim C8 amended: the four decision thresholds (composite_score_min,
cac_max, retention_rate_min, roas_min) are injectable configuration and
meets_thresholds compares against them, but the cost-efficiency cutoff
0.05 is hardcoded in the engine: the budget recommendation is the same
under every threshold configuration and always compares cost_efficiency
against 0.05. -/
theorem claim8_thresholds_config :
    (∀ t c a, analyzeCampaign t c = some a →
       (a.meets_thresholds = true ↔
         (t.composite_score ≤ a.composite_score ∧ a.cac ≤ t.cac ∧
          t.retention_rate ≤ a.retention_rate ∧ t.roas ≤ a.roas))) ∧
    (∀ t1 t2 c, (analyzeCampaign t1 c).map (fun a => a.budget_recommendation) =
       (analyzeCampaign t2 c).map (fun a => a.budget_recommendation)) ∧
    (∀ t c a, analyzeCampaign t c = some a →
       (a.budget_recommendation = costEffMsg ↔ (1 : ℚ)/20 < a.cost_efficiency)) := by
  refine ⟨?_, ?_, ?_⟩
  · intro t c a h
    obtain ⟨m, hm, rfl⟩ := Option.map_eq_some'.mp h
    simp [decide_analysis, Bool.and_eq_true, decide_eq_true_iff, and_assoc]
  · intro t1 t2 c
    cases hm : metricsOf c with
    | none => simp [analyzeCampaign, hm]
    | some m => simp [analyzeCampaign, hm, decide_analysis]
  · intro t c a h
    obtain ⟨m, hm, rfl⟩ := Option.map_eq_some'.mp h
    by_cases hce : (1 : ℚ)/20 < m.cost_efficiency <;>
      simp [decide_analysis, hce, costEffMsg, reassessMsg]

/-- Claim C8 witness: the amended clauses instantiated on rec8 under
the default and a second threshold configuration. -/
theorem claim8_witness :
    (anA.meets_thresholds = true ↔
      (defaultThresholds.composite_score ≤ anA.composite_score ∧
       anA.cac ≤ defaultThresholds.cac ∧
       defaultThresholds.retention_rate ≤ anA.retention_rate ∧
       defaultThresholds.roas ≤ anA.roas)) ∧
    (analyzeCampaign ⟨60, 40, 95, 4⟩ rec8).map (fun a => a.budget_recommendation) =
      (analyzeCampaign defaultThresholds rec8).map (fun a => a.budget_recommendation) ∧
    (anA.budget_recommendation = costEffMsg ↔ (1 : ℚ)/20 < anA.cost_efficiency) :=
  ⟨claim8_thresholds_config.1 defaultThresholds recA anA (by decide!),
   claim8_thresholds_config.2.1 ⟨60, 40, 95, 4⟩ defaultThresholds rec8,
   claim8_thresholds_config.2.2 defaultThresholds recA anA (by decide!)⟩

/-- Claim C9 counterexample: rec9 passes validation with 11 new
customers against 10 final customers, so the claim requires a negative
retention_rate; the raw ratio is -0.001 percent, which rounds to 0,
so the computed retention_rate is not negative (Python returns -0.0). -/
theorem claim9_counterexample :
    validate_data (ParseOutput.records [rec9]) = some ⟨true, [], [rec9]⟩ ∧
    lookupField rec9 "new_customers_acquired" = some (Value.intV 11) ∧
    lookupField rec9 "customers_end" = some (Value.intV 10) ∧
    (analyzeCampaign defaultThresholds rec9).map (fun a => a.retention_rate) = some 0 ∧
    (analyzeCampaign defaultThresholds rec9).map (fun a => decide (a.retention_rate < 0)) =
      some false := by
  exact ⟨by decide!, by decide!, by decide!, by decide!, by decide!⟩

/-- Claim C9 amended: a record that passes validation with more new
customers acquired than final customers is still analyzed without
rejection or exception (only the per-field domain checks gate
admission), and its retention_rate is nonpositive (negative before
rounding; rounding can lift a tiny negative value to 0). -/
theorem claim9_negative_retention_analyzed :
    ∀ (t : Thresholds) (r : RawRecord) (e n : ℤ),
      missingFields (convertRecord r) = [] →
      invalidFields (convertRecord r) = [] →
      lookupField (convertRecord r) "new_customers_acquired" = some (Value.intV n) →
      lookupField (convertRecord r) "customers_end" = some (Value.intV e) →
      e < n →
      ∃ a, analyzeCampaign t (convertRecord r) = some a ∧ a.retention_rate ≤ 0 := by
  intro t r e n hm hi hn he hlt
  obtain ⟨spend, nca, ce, cs, rev, adv, eng, conv, roi, budget,
    hspend, hnca, hncaQ, hce, hcs, hcsQ, hrev, hadv, hadvQ,
    heng, hconv, hroi, hbudget, hbudgetQ, hmetrics⟩ := metricsOf_of_valid r hm hi
  have hn' : getNum (convertRecord r) "new_customers_acquired" = some ((n : ℤ) : ℚ) := by
    simp [getNum, hn, numOf]
  have he' : getNum (convertRecord r) "customers_end" = some ((e : ℤ) : ℚ) := by
    simp [getNum, he, numOf]
  have h1 : nca = ((n : ℤ) : ℚ) := by
    rw [hnca] at hn'
    exact Option.some_inj.mp hn'
  have h2 : ce = ((e : ℤ) : ℚ) := by
    rw [hce] at he'
    exact Option.some_inj.mp he'
  refine ⟨decide_analysis t (mkMetrics spend nca ce cs rev adv eng conv roi budget),
    by simp [analyzeCampaign, hmetrics], ?_⟩
  have hsub : ce - nca < 0 := by
    rw [h1, h2]
    have : ((e : ℤ) : ℚ) < ((n : ℤ) : ℚ) := by exact_mod_cast hlt
    linarith
  have hneg : (ce - nca) / cs * 100 ≤ 0 := by
    have hdiv : (ce - nca) / cs < 0 := div_neg_of_neg_of_pos hsub hcsQ
    nlinarith
  exact round2_nonpos hneg

/-- Claim C9 witness: the amended statement instantiated on rec9
(counts 11 versus 10). -/
theorem claim9_witness :
    ∃ a, analyzeCampaign defaultThresholds (convertRecord rec9) = some a ∧
      a.retention_rate ≤ 0 :=
  claim9_negative_retention_analyzed defaultThresholds rec9 10 11
    (by decide!) (by decide!) (by decide!) (by decide!) (by decide)

/-- Claim C10: a count-field value that parses as a number is always
coerced to a machine integer, so the integrality half of the count
predicate cannot fail: after coercion the predicate accepts exactly
the numeric inputs whose truncation is positive (rejection happens only
for non-positivity, or for a non-numeric raw value on which the
comparison raises and is caught as invalid); a fractional count such as
"30.7" is truncated to 30 and admitted. -/
theorem claim10_integrality_never_fails :
    (∀ k v, countFields.contains k = true →
       (∃ q, parseFloatV v = some q) → ∃ n : ℤ, convertField k v = Value.intV n) ∧
    (∀ k v, countFields.contains k = true →
       (fieldPred k (convertField k v) = some true ↔
         ∃ q, parseFloatV v = some q ∧ 0 < truncQ q)) ∧
    (convertField "new_customers_acquired" (Value.str "30.7") = Value.intV 30 ∧
     fieldPred "new_customers_acquired"
       (convertField "new_customers_acquired" (Value.str "30.7")) = some true) := by
  refine ⟨?_, ?_, by decide!, by decide!⟩
  · intro k v hk hq
    obtain ⟨q, hp⟩ := hq
    have hk' : k ∈ countFields := by simpa using hk
    exact ⟨truncQ q, by simp [convertField, hk', hp]⟩
  · intro k v hk
    have hk' : k ∈ countFields := by simpa using hk
    have hru : ruleOf k = some Rule.posInt := by
      rcases (show k = "new_customers_acquired" ∨ k = "customers_start" ∨
          k = "customers_end" by simpa [countFields] using hk') with rfl | rfl | rfl <;> rfl
    cases hp : parseFloatV v with
    | some q =>
      rw [show convertField k v = Value.intV (truncQ q) by simp [convertField, hk', hp],
        fieldPred_eq_applyRule hru]
      simp [applyRule, hp]
    | none =>
      rw [show convertField k v = v by simp [convertField, hk', hp],
        fieldPred_eq_applyRule hru]
      cases v with
      | str s => simp [applyRule, hp]
      | other => simp [applyRule, hp]
      | intV n => simp [parseFloatV] at hp
      | floatV q => simp [parseFloatV] at hp

/-- Claim C10 witness: the general clauses instantiated on
customers_end with the float 2.5 (coerced to the integer 2 and
accepted) and with a non-numeric string (predicate does not accept). -/
theorem claim10_witness :
    (∃ n : ℤ, convertField "customers_end" (Value.floatV (5/2)) = Value.intV n) ∧
    (fieldPred "customers_end" (convertField "customers_end" (Value.floatV (5/2))) = some true ↔
      ∃ q, parseFloatV (Value.floatV (5/2)) = some q ∧ 0 < truncQ q) :=
  ⟨claim10_integrality_never_fails.1 "customers_end" (Value.floatV (5/2)) (by decide!)
     ⟨5/2, rfl⟩,
   claim10_integrality_never_fails.2.1 "customers_end" (Value.floatV (5/2)) (by decide!)⟩

end MarketingAI
